import Mathlib

/-!
Verification of the `TypedId` crate: a phantom-tagged wrapper `TypedId<I, T>`
around a raw identifier value of type `I`.  The tag `T` appears only as a type
parameter (Rust stores a `PhantomData<T>`, which carries no data), so the
embedding keeps `T` as a phantom type parameter and stores only the `I` value.

Rust trait bounds (`PartialEq`, `PartialOrd`, `Ord`, `Hash`, `Display`,
`Debug`, `Default`, `Clone`, `From`, serde's `Serialize` / `Deserialize`) are
embedded dictionary-style: each delegated operation takes the underlying
implementation on `I` as an explicit function argument.
-/

/-- Embedding of `TypedId<I, T>` from src/lib.rs: a single-field wrapper
holding one value of the underlying identifier type `I`; the tag `T` is a
phantom type parameter (Rust's second field is `PhantomData<T>`, which holds
no data). -/
structure TypedId (I : Type) (T : Type) where
  val : I

/-- Embedding of `TypedId::new`: wraps a raw identifier, no validation. -/
def TypedId.new {I T : Type} (id : I) : TypedId I T := ⟨id⟩

/-- Embedding of the `Deref` impl: transparent read access to the underlying
value (`fn deref(&self) -> &I { &self.0 }`). -/
def TypedId.deref {I T : Type} (x : TypedId I T) : I := x.val

/-- Embedding of the `From<I> for TypedId<I, T>` impl:
`TypedId(other, PhantomData)`. -/
def TypedId.fromRaw {I T : Type} (other : I) : TypedId I T := ⟨other⟩

/-- Embedding of `TypedId::convert::<B>` where `B: From<I>`: the `From`
dictionary of the destination type `B` is the argument `fromI`, and the body
is `B::from(self.0)`. -/
def TypedId.convert {I T B : Type} (x : TypedId I T) (fromI : I → B) : B :=
  fromI x.val

/-- Embedding of the blanket reflexive `impl<T> From<T> for T` from Rust core:
the identity conversion.  This is the `From<I>` instance picked when
`convert` is called with the raw type `I` itself as destination. -/
def fromSelf {I : Type} (x : I) : I := x

/-- Embedding of the `PartialEq` impl: `self.0.eq(&other.0)`, with `I`'s own
equality passed as the dictionary `eqI`.  Both arguments carry the same tag
`T`, as in the Rust impl (`Rhs = Self`). -/
def TypedId.eq {I T : Type} (eqI : I → I → Bool) (a b : TypedId I T) : Bool :=
  eqI a.val b.val

/-- Embedding of the `PartialOrd` impl (`partial_cmp`):
`self.0.partial_cmp(&other.0)`, with `I`'s own comparison passed as the
dictionary `pc`. -/
def TypedId.pcmp {I T : Type} (pc : I → I → Option Ordering)
    (a b : TypedId I T) : Option Ordering :=
  pc a.val b.val

/-- Embedding of the `Ord` impl (`cmp`): `self.0.cmp(&other.0)`, with `I`'s
own total comparison passed as the dictionary `cmpI`. -/
def TypedId.cmp {I T : Type} (cmpI : I → I → Ordering)
    (a b : TypedId I T) : Ordering :=
  cmpI a.val b.val

/-- Embedding of the `Hash` impl: `self.0.hash(state)`.  A hasher is modelled
as a state of type `H`; `I`'s `hash` is a state transformer `hashI : I → H → H`
(everything `I::hash` writes to the hasher is captured by this function), and
the wrapper's `hash` applies it to the stored value and nothing else. -/
def TypedId.hash {I T H : Type} (hashI : I → H → H) (x : TypedId I T)
    (state : H) : H :=
  hashI x.val state

/-- Embedding of the `Display` impl: `write!(f, "{}", self.0)` renders exactly
the underlying value's display text, with `I`'s `Display` passed as the
dictionary `dispI`. -/
def TypedId.display {I T : Type} (dispI : I → String) (x : TypedId I T) :
    String :=
  dispI x.val

/-- Embedding of `Formatter::debug_tuple(name).field(&v).finish()` in the
default (non-alternate) mode: the name followed by the single field's debug
text in parentheses. -/
def debugTuple (name : String) (field : String) : String :=
  name ++ "(" ++ field ++ ")"

/-- Embedding of the `Debug` impl:
`f.debug_tuple("TypedId").field(&self.0).finish()`, with `I`'s `Debug` passed
as the dictionary `dbgI`. -/
def TypedId.debugFmt {I T : Type} (dbgI : I → String) (x : TypedId I T) :
    String :=
  debugTuple "TypedId" (dbgI x.val)

/-- Debug (and Display) rendering of a `u32` value: decimal digits.  The
value 42 is all the claims use, so `u32` values are modelled as `Nat`. -/
def u32Debug (n : Nat) : String := toString n

/-- Embedding of the `Default` impl: `Self(Default::default(), PhantomData)`,
with `I`'s default value passed as the dictionary `d`. -/
def TypedId.default {I T : Type} (d : I) : TypedId I T := ⟨d⟩

/-- Embedding of the `Clone` impl: `Self(self.0.clone(), PhantomData)`, with
`I`'s `clone` passed as the dictionary `cloneI`. -/
def TypedId.clone {I T : Type} (cloneI : I → I) (x : TypedId I T) :
    TypedId I T :=
  ⟨cloneI x.val⟩

/-- Embedding of the serde `Serialize` impl from src/serde.rs:
`self.0.serialize(serializer)`.  A serializer applied to an `I` is modelled as
`serI : I → Except E Ok` (success value `Ok` or error `E`); the wrapper
serializes by applying it to the stored value. -/
def TypedId.serialize {I T Ok E : Type} (serI : I → Except E Ok)
    (x : TypedId I T) : Except E Ok :=
  serI x.val

/-- Embedding of the serde `Deserialize` impl from src/serde.rs:
`I::deserialize(deserializer).map(|id| id.into())`.  Decoding an `I` from a
deserializer input `d : D` is modelled as `deI : D → Except E I`; the result
is mapped through `From<I> for TypedId` and the error is left untouched. -/
def TypedId.deserialize {I T D E : Type} (deI : D → Except E I) (d : D) :
    Except E (TypedId I T) :=
  (deI d).map TypedId.fromRaw

/-- Claim C1: for every raw value `v` and every tag `T`, constructing a
wrapper from `v` (via `TypedId::new` or via the `From<I>` conversion) and
reading the underlying value back through `Deref` yields exactly `v`. -/
theorem typedId_wrap_unwrap_roundtrip {I T : Type} (v : I) :
    (TypedId.new v : TypedId I T).deref = v ∧
    (TypedId.fromRaw v : TypedId I T).deref = v :=
  ⟨rfl, rfl⟩

/-- Claim C2: under the same tag, wrappers compare equal exactly when `I`'s
own equality deems the underlying values equal, and `partial_cmp` / `cmp`
return exactly the result of `I`'s comparison on the underlying values. -/
theorem typedId_eq_ord_delegate {I T : Type} (eqI : I → I → Bool)
    (pc : I → I → Option Ordering) (cmpI : I → I → Ordering) (v1 v2 : I) :
    (TypedId.eq eqI (TypedId.new v1 : TypedId I T) (TypedId.new v2) = true ↔
      eqI v1 v2 = true) ∧
    TypedId.pcmp pc (TypedId.new v1 : TypedId I T) (TypedId.new v2) =
      pc v1 v2 ∧
    TypedId.cmp cmpI (TypedId.new v1 : TypedId I T) (TypedId.new v2) =
      cmpI v1 v2 :=
  ⟨Iff.rfl, rfl, rfl⟩

/-- Claim C4: serializing a wrapper produces exactly the output of
serializing the bare value; deserializing decodes an `I` and wraps it, so a
successful decode of `w` yields the wrapper holding `w` and a failing decode
propagates exactly the error that decoding a bare `I` produced. -/
theorem typedId_serde_delegates {I T D Ok E : Type} (serI : I → Except E Ok)
    (deI : D → Except E I) (v : I) (d : D) :
    TypedId.serialize serI (TypedId.new v : TypedId I T) = serI v ∧
    (∀ w : I, deI d = Except.ok w →
      (TypedId.deserialize deI d : Except E (TypedId I T)) =
        Except.ok (TypedId.new w)) ∧
    (∀ e : E, deI d = Except.error e →
      (TypedId.deserialize deI d : Except E (TypedId I T)) =
        Except.error e) := by
  refine ⟨rfl, ?_, ?_⟩ <;> intro x h <;>
    simp [TypedId.deserialize, h, Except.map, TypedId.fromRaw, TypedId.new]

/-- Witness for C4 at concrete inputs: `I = Nat`, serializer renders the
decimal string, deserializer fails on 0 and succeeds otherwise. -/
theorem typedId_serde_delegates_witness :
    TypedId.serialize (fun n : Nat => (Except.ok (toString n) :
        Except String String)) (TypedId.new 5 : TypedId Nat Unit) =
      (fun n : Nat => (Except.ok (toString n) : Except String String)) 5 ∧
    (TypedId.deserialize
        (fun d : Nat => if d = 0 then Except.error "bad" else Except.ok d) 3 :
      Except String (TypedId Nat Unit)) = Except.ok (TypedId.new 3) ∧
    (TypedId.deserialize
        (fun d : Nat => if d = 0 then Except.error "bad" else Except.ok d) 0 :
      Except String (TypedId Nat Unit)) = Except.error "bad" :=
  ⟨(typedId_serde_delegates _
      (fun d : Nat => if d = 0 then Except.error "bad" else Except.ok d)
      5 3).1,
   (typedId_serde_delegates
      (fun n : Nat => (Except.ok (toString n) : Except String String))
      (fun d : Nat => if d = 0 then Except.error "bad" else Except.ok d)
      5 3).2.1 3 rfl,
   (typedId_serde_delegates
      (fun n : Nat => (Except.ok (toString n) : Except String String))
      (fun d : Nat => if d = 0 then Except.error "bad" else Except.ok d)
      5 0).2.2 "bad" rfl⟩

/-- Claim C5: converting a wrapper tagged `A` to tag `B` via `convert` (using
the `From<I>` instance of the destination wrapper) and converting the result
back to tag `A` yields exactly the original wrapper. -/
theorem typedId_convert_two_hop_roundtrip {I A B : Type} (v : I) :
    ((TypedId.new v : TypedId I A).convert
        (fun i => (TypedId.fromRaw i : TypedId I B))).convert
      (fun i => (TypedId.fromRaw i : TypedId I A)) =
      (TypedId.new v : TypedId I A) :=
  rfl

/-- Counterexample for claim C6: debug-formatting the wrapper holding
`42: u32` produces the string "TypedId(42)" (the name the code passes to
`debug_tuple`), not "TaggedId(42)" as the claim states. -/
theorem typedId_debug_42_counterexample :
    TypedId.debugFmt u32Debug (TypedId.new 42 : TypedId Nat Unit) =
      "TypedId(42)" ∧
    TypedId.debugFmt u32Debug (TypedId.new 42 : TypedId Nat Unit) ≠
      "TaggedId(42)" :=
  ⟨rfl, by decide⟩

/-- Amended claim C6: debug-formatting the wrapper holding `v` produces the
wrapper-named form "TypedId(...)" embedding `v`'s debug text; in particular
the wrapper holding `42: u32` debug-formats to "TypedId(42)". -/
theorem typedId_debug_wrapper_form :
    (∀ (I T : Type) (dbgI : I → String) (v : I),
      TypedId.debugFmt dbgI (TypedId.new v : TypedId I T) =
        "TypedId(" ++ dbgI v ++ ")") ∧
    TypedId.debugFmt u32Debug (TypedId.new 42 : TypedId Nat Unit) =
      "TypedId(42)" :=
  ⟨fun _ _ _ _ => rfl, rfl⟩

/-- Claim C7: display-formatting the wrapper holding `v` produces exactly the
same text as display-formatting `v` directly, for every tag `T`. -/
theorem typedId_display_transparent {I T : Type} (dispI : I → String)
    (v : I) :
    TypedId.display dispI (TypedId.new v : TypedId I T) = dispI v :=
  rfl

/-- Claim C8: hashing the wrapper holding `v` from any hasher state performs
exactly `I`'s own hash of `v` on that state and writes nothing else, so the
wrapper's hash equals the hash of the raw value. -/
theorem typedId_hash_delegates {I T H : Type} (hashI : I → H → H) (v : I)
    (state : H) :
    TypedId.hash hashI (TypedId.new v : TypedId I T) state = hashI v state :=
  rfl

/-- Claim C9 (tag noninterference): for any two tags `T1` and `T2`, every
runtime operation — equality, `partial_cmp`, `cmp`, hashing, display and
debug formatting, default construction, cloning, serialization, and `convert`
to the same destination — produces identical results on the wrappers of `v`
tagged `T1` and tagged `T2`; no computation depends on the tag. -/
theorem typedId_tag_noninterference {I T1 T2 H B Ok E : Type}
    (v w : I) (eqI : I → I → Bool) (pc : I → I → Option Ordering)
    (cmpI : I → I → Ordering) (hashI : I → H → H) (state : H)
    (dispI dbgI : I → String) (d : I) (cloneI : I → I)
    (serI : I → Except E Ok) (fromI : I → B) :
    TypedId.eq eqI (TypedId.new v : TypedId I T1) (TypedId.new w) =
      TypedId.eq eqI (TypedId.new v : TypedId I T2) (TypedId.new w) ∧
    TypedId.pcmp pc (TypedId.new v : TypedId I T1) (TypedId.new w) =
      TypedId.pcmp pc (TypedId.new v : TypedId I T2) (TypedId.new w) ∧
    TypedId.cmp cmpI (TypedId.new v : TypedId I T1) (TypedId.new w) =
      TypedId.cmp cmpI (TypedId.new v : TypedId I T2) (TypedId.new w) ∧
    TypedId.hash hashI (TypedId.new v : TypedId I T1) state =
      TypedId.hash hashI (TypedId.new v : TypedId I T2) state ∧
    TypedId.display dispI (TypedId.new v : TypedId I T1) =
      TypedId.display dispI (TypedId.new v : TypedId I T2) ∧
    TypedId.debugFmt dbgI (TypedId.new v : TypedId I T1) =
      TypedId.debugFmt dbgI (TypedId.new v : TypedId I T2) ∧
    (TypedId.default d : TypedId I T1).val =
      (TypedId.default d : TypedId I T2).val ∧
    (TypedId.clone cloneI (TypedId.new v : TypedId I T1)).val =
      (TypedId.clone cloneI (TypedId.new v : TypedId I T2)).val ∧
    TypedId.serialize serI (TypedId.new v : TypedId I T1) =
      TypedId.serialize serI (TypedId.new v : TypedId I T2) ∧
    (TypedId.new v : TypedId I T1).convert fromI =
      (TypedId.new v : TypedId I T2).convert fromI :=
  ⟨rfl, rfl, rfl, rfl, rfl, rfl, rfl, rfl, rfl, rfl⟩

/-- Claim C10: calling `convert` with the raw type `I` itself as destination
uses the reflexive `From<I> for I` instance (the identity), so it returns
exactly the stored raw value: convert to the raw type is exact unwrapping. -/
theorem typedId_convert_to_raw_unwraps {I T : Type} (v : I) :
    (TypedId.new v : TypedId I T).convert fromSelf = v :=
  rfl
